import Mathlib

/-!
Shallow embedding of `server/bot_runtime.py` (class `BotRuntime`).

The Python module is a thread-based lifecycle controller: `start` spawns a
daemon thread running `_thread_main`, `stop` sets a shared `threading.Event`,
and `status` returns the current `BotStatus` snapshot.  Every mutation of the
shared fields happens inside `with self._lock:` blocks, so each such block is
modelled as one atomic transition of a labelled step relation.  The worker
thread itself performs three lock-protected transitions (the entry write, the
terminal write after `_run_bot` returns or raises, and then the thread dying),
so it is modelled by a phase automaton carried in the stored thread handle.
-/

/-- Mirror of the frozen dataclass `BotStatus(running, state, detail)`. -/
structure BotStatus where
  running : Bool
  state : String
  detail : String
deriving DecidableEq, Repr

/-- Phase of the worker thread spawned by `start`:
`spawned` = `t.start()` was called but `_thread_main` has not yet performed its
entry write; `bodyRunning` = the entry write happened and `_run_bot` is
executing; `terminal` = the terminal status write (finished or crashed)
happened but the thread has not yet exited, so `is_alive()` is still true;
`dead` = the thread has exited (`is_alive()` is false). -/
inductive WorkerPhase where
  | spawned
  | bodyRunning
  | terminal
  | dead
deriving DecidableEq, Repr

/-- A thread handle as observable through the runtime: an identity (so that
distinct spawns are distinct workers) and its current phase. -/
structure Worker where
  id : Nat
  phase : WorkerPhase
deriving DecidableEq, Repr

/-- A Python exception value as far as `repr(e)` is concerned: a class name
and the message argument. -/
structure Exc where
  name : String
  msg : String
deriving DecidableEq, Repr

/-- The single-quote character used by Python `repr` around the message. -/
def quoteStr : String := String.singleton (Char.ofNat 39)

/-- Model of Python `repr(e)` for an exception `e = Name(msg)`: the string
`Name` followed by the quoted message in parentheses. -/
def reprExc (e : Exc) : String :=
  e.name ++ "(" ++ quoteStr ++ e.msg ++ quoteStr ++ ")"

/-- `sub` occurs as a contiguous substring of `s`. -/
def containsSub (s sub : String) : Prop :=
  ∃ a b : String, s = a ++ sub ++ b

/-- State of one `BotRuntime` instance: the fields `_thread`, `_stop_event`,
`_status` set up in `__init__`, plus a counter supplying fresh thread
identities for successive spawns. -/
structure Sys where
  thread : Option Worker
  stopEvent : Bool
  status : BotStatus
  nextId : Nat
deriving DecidableEq, Repr

/-- `__init__`: no thread, event cleared, status idle. -/
def Sys.init : Sys :=
  { thread := none
    stopEvent := false
    status := ⟨false, "idle", "not started"⟩
    nextId := 0 }

/-- The Python guard `self._thread and self._thread.is_alive()`. -/
def Sys.threadAlive (s : Sys) : Bool :=
  match s.thread with
  | none => false
  | some w =>
    match w.phase with
    | WorkerPhase.dead => false
    | _ => true

/-- `BotRuntime.status()`: return the current status; no field changes. -/
def Sys.statusOp (s : Sys) : BotStatus × Sys :=
  (s.status, s)

/-- `BotRuntime.start()`: if a thread is alive, overwrite the status with
`(True, "running", "already running")` and return it; otherwise clear the
stop event, write `(True, "starting", "launching thread")`, spawn a fresh
thread handle, store it, and return the starting status. -/
def Sys.start (s : Sys) : BotStatus × Sys :=
  if s.threadAlive = true then
    let st : BotStatus := ⟨true, "running", "already running"⟩
    (st, { s with status := st })
  else
    let st : BotStatus := ⟨true, "starting", "launching thread"⟩
    (st, { s with
            stopEvent := false
            status := st
            thread := some ⟨s.nextId, WorkerPhase.spawned⟩
            nextId := s.nextId + 1 })

/-- `BotRuntime.stop()`: if no thread is alive, overwrite the status with
`(False, "stopped", "already stopped")` and return it; otherwise write
`(True, "stopping", "stop requested")`, set the stop event, and return the
stopping status. -/
def Sys.stop (s : Sys) : BotStatus × Sys :=
  if s.threadAlive = true then
    let st : BotStatus := ⟨true, "stopping", "stop requested"⟩
    (st, { s with status := st, stopEvent := true })
  else
    let st : BotStatus := ⟨false, "stopped", "already stopped"⟩
    (st, { s with status := st })

/-- The first lock block of `_thread_main`: the entry write
`self._status = BotStatus(True, "running", "started")`, moving the worker
from `spawned` to `bodyRunning` (identity if the worker is not in that
phase, so the task body cannot be entered twice). -/
def Sys.workerEnter (s : Sys) : Sys :=
  match s.thread with
  | none => s
  | some w =>
    if w.phase = WorkerPhase.spawned then
      { s with
          thread := some ⟨w.id, WorkerPhase.bodyRunning⟩
          status := ⟨true, "running", "started"⟩ }
    else s

/-- Normal return of `_run_bot` followed by the lock block writing
`BotStatus(False, "stopped", "finished")`; the thread is then about to exit
(`terminal`). Identity unless the body is running. -/
def Sys.workerFinish (s : Sys) : Sys :=
  match s.thread with
  | none => s
  | some w =>
    if w.phase = WorkerPhase.bodyRunning then
      { s with
          thread := some ⟨w.id, WorkerPhase.terminal⟩
          status := ⟨false, "stopped", "finished"⟩ }
    else s

/-- `_run_bot` raising exception `e`, caught by `except Exception as e:`,
which writes `BotStatus(False, "crashed", repr(e))`; the thread is then
about to exit. Identity unless the body is running. -/
def Sys.workerCrash (s : Sys) (e : Exc) : Sys :=
  match s.thread with
  | none => s
  | some w =>
    if w.phase = WorkerPhase.bodyRunning then
      { s with
          thread := some ⟨w.id, WorkerPhase.terminal⟩
          status := ⟨false, "crashed", reprExc e⟩ }
    else s

/-- `_thread_main` returning: the thread exits and `is_alive()` becomes
false. No shared field other than the liveness of the handle changes. -/
def Sys.workerDie (s : Sys) : Sys :=
  match s.thread with
  | none => s
  | some w =>
    if w.phase = WorkerPhase.terminal then
      { s with thread := some ⟨w.id, WorkerPhase.dead⟩ }
    else s

/-- Labels naming which atomic lock-protected block fires. -/
inductive Label where
  | startL
  | stopL
  | queryL
  | enterL
  | finishL
  | crashL (e : Exc)
  | dieL
deriving DecidableEq, Repr

/-- One atomic transition of the runtime: a caller running `start`, `stop`
or `status`, or the worker thread performing one of its own transitions. -/
inductive Step : Label → Sys → Sys → Prop where
  | start (s : Sys) : Step Label.startL s (s.start).2
  | stop (s : Sys) : Step Label.stopL s (s.stop).2
  | query (s : Sys) : Step Label.queryL s (s.statusOp).2
  | enter (s : Sys) : Step Label.enterL s s.workerEnter
  | finish (s : Sys) : Step Label.finishL s s.workerFinish
  | crash (e : Exc) (s : Sys) : Step (Label.crashL e) s (s.workerCrash e)
  | die (s : Sys) : Step Label.dieL s s.workerDie

/-- States reachable from a freshly constructed `BotRuntime` by any
interleaving of caller operations and worker transitions. -/
inductive Reachable : Sys → Prop where
  | init : Reachable Sys.init
  | step {s s' : Sys} {l : Label} : Reachable s → Step l s s' → Reachable s'

lemma string_data_append (a b : String) : (a ++ b).data = a.data ++ b.data := by
  cases a; cases b; rfl

lemma string_ext (a b : String) (h : a.data = b.data) : a = b := by
  cases a; cases b; exact congrArg String.mk h

lemma quoteStr_length : quoteStr.length = 1 := rfl

lemma reprExc_contains (e : Exc) : containsSub (reprExc e) e.msg := by
  refine ⟨e.name ++ "(" ++ quoteStr, quoteStr ++ ")", ?_⟩
  apply string_ext
  simp [reprExc, string_data_append]

lemma reprExc_ne_empty (e : Exc) : reprExc e ≠ "" := by
  intro h
  have h2 := congrArg String.length h
  rw [reprExc] at h2
  simp [String.length_append, quoteStr_length] at h2

/-- The invariant of claim C1 on one status value: `running` is true exactly
for the states starting, running and stopping, and a crashed status carries
`running = false` together with a non-empty detail recording the repr of the
raised exception, whose message it contains. -/
def statusOK (st : BotStatus) : Prop :=
  (st.running = true ↔
    (st.state = "starting" ∨ st.state = "running" ∨ st.state = "stopping")) ∧
  (st.state = "crashed" →
    st.running = false ∧ st.detail ≠ "" ∧
    ∃ e : Exc, st.detail = reprExc e ∧ containsSub st.detail e.msg)

lemma ok_idle : statusOK ⟨false, "idle", "not started"⟩ := by
  exact ⟨by decide, fun h => absurd h (by decide)⟩

lemma ok_already_running : statusOK ⟨true, "running", "already running"⟩ := by
  exact ⟨by decide, fun h => absurd h (by decide)⟩

lemma ok_starting : statusOK ⟨true, "starting", "launching thread"⟩ := by
  exact ⟨by decide, fun h => absurd h (by decide)⟩

lemma ok_already_stopped : statusOK ⟨false, "stopped", "already stopped"⟩ := by
  exact ⟨by decide, fun h => absurd h (by decide)⟩

lemma ok_stopping : statusOK ⟨true, "stopping", "stop requested"⟩ := by
  exact ⟨by decide, fun h => absurd h (by decide)⟩

lemma ok_started : statusOK ⟨true, "running", "started"⟩ := by
  exact ⟨by decide, fun h => absurd h (by decide)⟩

lemma ok_finished : statusOK ⟨false, "stopped", "finished"⟩ := by
  exact ⟨by decide, fun h => absurd h (by decide)⟩

lemma ok_crashed (e : Exc) : statusOK ⟨false, "crashed", reprExc e⟩ := by
  constructor
  · show false = true ↔
      ("crashed" = "starting" ∨ "crashed" = "running" ∨ "crashed" = "stopping")
    decide
  · intro _
    exact ⟨rfl, reprExc_ne_empty e, e, rfl, reprExc_contains e⟩

lemma step_preserves {l : Label} {s s' : Sys} (hs : Step l s s')
    (h : statusOK s.status) : statusOK s'.status := by
  cases hs with
  | start s =>
    by_cases hA : s.threadAlive = true
    · simpa [Sys.start, hA] using ok_already_running
    · simpa [Sys.start, hA] using ok_starting
  | stop s =>
    by_cases hA : s.threadAlive = true
    · simpa [Sys.stop, hA] using ok_stopping
    · simpa [Sys.stop, hA] using ok_already_stopped
  | query s => exact h
  | enter s =>
    cases hT : s.thread with
    | none => simpa [Sys.workerEnter, hT] using h
    | some w =>
      by_cases hP : w.phase = WorkerPhase.spawned
      · simpa [Sys.workerEnter, hT, hP] using ok_started
      · simpa [Sys.workerEnter, hT, hP] using h
  | finish s =>
    cases hT : s.thread with
    | none => simpa [Sys.workerFinish, hT] using h
    | some w =>
      by_cases hP : w.phase = WorkerPhase.bodyRunning
      · simpa [Sys.workerFinish, hT, hP] using ok_finished
      · simpa [Sys.workerFinish, hT, hP] using h
  | crash e s =>
    cases hT : s.thread with
    | none => simpa [Sys.workerCrash, hT] using h
    | some w =>
      by_cases hP : w.phase = WorkerPhase.bodyRunning
      · simpa [Sys.workerCrash, hT, hP] using ok_crashed e
      · simpa [Sys.workerCrash, hT, hP] using h
  | die s =>
    cases hT : s.thread with
    | none => simpa [Sys.workerDie, hT] using h
    | some w =>
      by_cases hP : w.phase = WorkerPhase.terminal
      · simpa [Sys.workerDie, hT, hP] using h
      · simpa [Sys.workerDie, hT, hP] using h

lemma statusOK_reachable {s : Sys} (h : Reachable s) : statusOK s.status := by
  induction h with
  | init => exact ok_idle
  | step _ hs ih => exact step_preserves hs ih

lemma start_returns_stored (s : Sys) : (s.start).1 = (s.start).2.status := by
  by_cases hA : s.threadAlive = true <;> simp [Sys.start, hA]

lemma stop_returns_stored (s : Sys) : (s.stop).1 = (s.stop).2.status := by
  by_cases hA : s.threadAlive = true <;> simp [Sys.stop, hA]

/-- The exception of the spec scenario: `ValueError("boom")`. -/
def excBoom : Exc := ⟨"ValueError", "boom"⟩

/-- State after the first `start()` on a fresh runtime: worker 0 spawned. -/
def traceSpawned : Sys := (Sys.init.start).2

/-- State after the worker performed its entry write: body running. -/
def traceRunning : Sys := traceSpawned.workerEnter

/-- State after `stop()` on the running runtime: stopping, signal set. -/
def traceStopping : Sys := (traceRunning.stop).2

/-- State after the running worker crashed with `ValueError("boom")` and the
thread exited. -/
def traceCrashedDead : Sys := (traceRunning.workerCrash excBoom).workerDie

lemma start_state (s : Sys) :
    (s.start).2.status.state = "running" ∨ (s.start).2.status.state = "starting" := by
  by_cases hA : s.threadAlive = true <;> simp [Sys.start, hA]

lemma stop_state (s : Sys) :
    (s.stop).2.status.state = "stopping" ∨ (s.stop).2.status.state = "stopped" := by
  by_cases hA : s.threadAlive = true <;> simp [Sys.stop, hA]

lemma enter_state (s : Sys) :
    s.workerEnter.status = s.status ∨ s.workerEnter.status.state = "running" := by
  cases hT : s.thread with
  | none => left; simp [Sys.workerEnter, hT]
  | some w =>
    by_cases hP : w.phase = WorkerPhase.spawned
    · right; simp [Sys.workerEnter, hT, hP]
    · left; simp [Sys.workerEnter, hT, hP]

lemma finish_state (s : Sys) :
    s.workerFinish.status = s.status ∨ s.workerFinish.status.state = "stopped" := by
  cases hT : s.thread with
  | none => left; simp [Sys.workerFinish, hT]
  | some w =>
    by_cases hP : w.phase = WorkerPhase.bodyRunning
    · right; simp [Sys.workerFinish, hT, hP]
    · left; simp [Sys.workerFinish, hT, hP]

lemma die_status (s : Sys) : s.workerDie.status = s.status := by
  cases hT : s.thread with
  | none => simp [Sys.workerDie, hT]
  | some w =>
    by_cases hP : w.phase = WorkerPhase.terminal <;> simp [Sys.workerDie, hT, hP]

/-- C1: every status value the runtime stores (in any reachable state) or
returns (from `status()`, `start()`, `stop()`, including the worker's own
transitions, all of which are steps generating `Reachable`) satisfies:
`running = true` iff the state is starting, running or stopping; and a
crashed status has `running = false` and a non-empty detail containing the
failure cause. -/
theorem c1_status_invariant (s : Sys) (h : Reachable s) :
    statusOK s.status ∧ statusOK (s.start).1 ∧ statusOK (s.stop).1 ∧
    (s.statusOp).1 = s.status := by
  refine ⟨statusOK_reachable h, ?_, ?_, rfl⟩
  · rw [start_returns_stored]
    exact statusOK_reachable (Reachable.step h (Step.start s))
  · rw [stop_returns_stored]
    exact statusOK_reachable (Reachable.step h (Step.stop s))

/-- C1 witness: the invariant instantiated at the initial state. -/
theorem c1_status_invariant_at_init :
    statusOK Sys.init.status ∧ statusOK (Sys.init.start).1 ∧
    statusOK (Sys.init.stop).1 ∧ (Sys.init.statusOp).1 = Sys.init.status :=
  c1_status_invariant Sys.init Reachable.init

/-- C2: `start()` while a worker thread is alive spawns nothing (thread
handle and id counter are unchanged) and sets and returns the status
`(True, "running", "already running")`. -/
theorem c2_start_noop_when_alive (s : Sys) (h : s.threadAlive = true) :
    (s.start).1 = ⟨true, "running", "already running"⟩ ∧
    (s.start).2.status = ⟨true, "running", "already running"⟩ ∧
    (s.start).2.thread = s.thread ∧
    (s.start).2.nextId = s.nextId ∧
    (s.start).2.stopEvent = s.stopEvent := by
  simp [Sys.start, h]

/-- C2 witness: instantiated right after the first spawn, where the worker
is alive. -/
theorem c2_start_noop_at_spawned :
    traceSpawned.threadAlive = true ∧
    ((traceSpawned.start).1 = ⟨true, "running", "already running"⟩ ∧
     (traceSpawned.start).2.status = ⟨true, "running", "already running"⟩ ∧
     (traceSpawned.start).2.thread = traceSpawned.thread ∧
     (traceSpawned.start).2.nextId = traceSpawned.nextId ∧
     (traceSpawned.start).2.stopEvent = traceSpawned.stopEvent) :=
  ⟨rfl, c2_start_noop_when_alive traceSpawned rfl⟩

/-- C3 counterexample: on a fresh runtime (no worker alive) `start()`
returns detail `"launching thread"`, not `"launching"` as the claim
states, so the returned status differs from the claimed one. -/
theorem c3_detail_differs :
    Sys.init.threadAlive = false ∧
    (Sys.init.start).1 ≠ ⟨true, "starting", "launching"⟩ ∧
    (Sys.init.start).1.detail = "launching thread" := by
  decide

/-- C3 (amended to detail `"launching thread"`): `start()` with no live
worker clears the stop event, stores and returns the starting status,
spawns exactly one fresh worker handle bound to the shared signal, and the
round trip start-enter-stop-finish-die-start yields a second, distinct
worker that again observes a cleared signal. -/
theorem c3_start_spawns (s : Sys) (h : s.threadAlive = false) :
    ((s.start).1 = ⟨true, "starting", "launching thread"⟩ ∧
     (s.start).2.status = ⟨true, "starting", "launching thread"⟩ ∧
     (s.start).2.stopEvent = false ∧
     (s.start).2.thread = some ⟨s.nextId, WorkerPhase.spawned⟩ ∧
     (s.start).2.nextId = s.nextId + 1) ∧
    (traceSpawned.thread = some ⟨0, WorkerPhase.spawned⟩ ∧
     traceSpawned.stopEvent = false ∧
     traceStopping.stopEvent = true ∧
     ((traceStopping.workerFinish.workerDie).start).2.thread =
       some ⟨1, WorkerPhase.spawned⟩ ∧
     ((traceStopping.workerFinish.workerDie).start).2.stopEvent = false) := by
  constructor
  · have hA : (s.threadAlive = true) = False := by simp [h]
    simp [Sys.start, hA]
  · decide

/-- C3 witness: the amended start behaviour at the fresh runtime. -/
theorem c3_start_spawns_at_init :
    Sys.init.threadAlive = false ∧
    (Sys.init.start).1 = ⟨true, "starting", "launching thread"⟩ ∧
    (Sys.init.start).2.stopEvent = false :=
  ⟨rfl, ((c3_start_spawns Sys.init rfl).1).1,
    ((c3_start_spawns Sys.init rfl).1).2.2.1⟩

/-- C4: `stop()` with no live worker sets and returns
`(False, "stopped", "already stopped")`, leaves the stop event, the thread
handle and the id counter untouched, and reports no failure state. -/
theorem c4_stop_noop_when_dead (s : Sys) (h : s.threadAlive = false) :
    (s.stop).1 = ⟨false, "stopped", "already stopped"⟩ ∧
    (s.stop).2.status = ⟨false, "stopped", "already stopped"⟩ ∧
    (s.stop).2.stopEvent = s.stopEvent ∧
    (s.stop).2.thread = s.thread ∧
    (s.stop).2.nextId = s.nextId ∧
    (s.stop).1.state ≠ "crashed" := by
  have hA : (s.threadAlive = true) = False := by simp [h]
  simp [Sys.stop, hA]

/-- C4 witness: instantiated at the fresh runtime. -/
theorem c4_stop_noop_at_init :
    Sys.init.threadAlive = false ∧
    ((Sys.init.stop).1 = ⟨false, "stopped", "already stopped"⟩ ∧
     (Sys.init.stop).2.status = ⟨false, "stopped", "already stopped"⟩ ∧
     (Sys.init.stop).2.stopEvent = Sys.init.stopEvent ∧
     (Sys.init.stop).2.thread = Sys.init.thread ∧
     (Sys.init.stop).2.nextId = Sys.init.nextId ∧
     (Sys.init.stop).1.state ≠ "crashed") :=
  ⟨rfl, c4_stop_noop_when_dead Sys.init rfl⟩

/-- C5: `stop()` while a worker is alive sets and returns
`(True, "stopping", "stop requested")` and sets the shared stop event; the
thread handle and the id counter are unchanged. -/
theorem c5_stop_requests_cancel (s : Sys) (h : s.threadAlive = true) :
    (s.stop).1 = ⟨true, "stopping", "stop requested"⟩ ∧
    (s.stop).2.status = ⟨true, "stopping", "stop requested"⟩ ∧
    (s.stop).2.stopEvent = true ∧
    (s.stop).2.thread = s.thread ∧
    (s.stop).2.nextId = s.nextId := by
  simp [Sys.stop, h]

/-- C5 witness: instantiated at the state with the worker body running. -/
theorem c5_stop_requests_at_running :
    traceRunning.threadAlive = true ∧
    ((traceRunning.stop).1 = ⟨true, "stopping", "stop requested"⟩ ∧
     (traceRunning.stop).2.status = ⟨true, "stopping", "stop requested"⟩ ∧
     (traceRunning.stop).2.stopEvent = true ∧
     (traceRunning.stop).2.thread = traceRunning.thread ∧
     (traceRunning.stop).2.nextId = traceRunning.nextId) :=
  ⟨rfl, c5_stop_requests_cancel traceRunning rfl⟩

/-- C6: the worker first performs the entry write
`(True, "running", "started")` moving its phase from spawned to
bodyRunning (the unique task-body invocation, which receives the shared
stop event; a worker not in the spawned phase cannot re-enter, so the body
runs exactly once), and a normal return of the body performs the write
`(False, "stopped", "finished")`. -/
theorem c6_worker_lifecycle (s : Sys) (w : Worker) (h : s.thread = some w) :
    (w.phase = WorkerPhase.spawned →
      s.workerEnter.status = ⟨true, "running", "started"⟩ ∧
      s.workerEnter.thread = some ⟨w.id, WorkerPhase.bodyRunning⟩ ∧
      s.workerEnter.stopEvent = s.stopEvent) ∧
    (w.phase ≠ WorkerPhase.spawned → s.workerEnter = s) ∧
    (w.phase = WorkerPhase.bodyRunning →
      s.workerFinish.status = ⟨false, "stopped", "finished"⟩ ∧
      s.workerFinish.thread = some ⟨w.id, WorkerPhase.terminal⟩ ∧
      s.workerFinish.stopEvent = s.stopEvent) := by
  refine ⟨fun hP => ?_, fun hP => ?_, fun hP => ?_⟩
  · simp [Sys.workerEnter, h, hP]
  · simp [Sys.workerEnter, h, hP]
  · have hP2 : w.phase ≠ WorkerPhase.spawned := by rw [hP]; decide
    simp [Sys.workerFinish, h, hP]

/-- C6 witness: the entry and finish writes on the concrete first run. -/
theorem c6_worker_lifecycle_at_run :
    traceSpawned.workerEnter.status = ⟨true, "running", "started"⟩ ∧
    traceRunning.workerFinish.status = ⟨false, "stopped", "finished"⟩ := by
  have h1 := c6_worker_lifecycle traceSpawned ⟨0, WorkerPhase.spawned⟩ rfl
  have h2 := c6_worker_lifecycle traceRunning ⟨0, WorkerPhase.bodyRunning⟩ rfl
  exact ⟨(h1.1 rfl).1, (h2.2.2 rfl).1⟩

/-- C7: an error raised by the task body is caught and recorded as the
status `(False, "crashed", repr(e))`, whose detail contains the message
and is non-empty; and across every atomic transition of the runtime, a
newly crashed status can only appear through the crash transition of the
worker (every caller-facing operation is a total function on states, so no
error propagates to `start`, `stop` or `status` callers). -/
theorem c7_crash_only_path (l : Label) (s s' : Sys) (e : Exc)
    (hs : Step l s s') :
    (s'.status.state = "crashed" →
      s.status.state = "crashed" ∨ ∃ e0 : Exc, l = Label.crashL e0) ∧
    ((∃ w : Worker, s.thread = some w ∧ w.phase = WorkerPhase.bodyRunning) →
      (s.workerCrash e).status = ⟨false, "crashed", reprExc e⟩ ∧
      containsSub ((s.workerCrash e).status.detail) e.msg ∧
      (s.workerCrash e).status.detail ≠ "") := by
  constructor
  · cases hs with
    | start s =>
      intro hC
      rcases start_state s with h1 | h1 <;>
        exact absurd (h1.symm.trans hC) (by decide)
    | stop s =>
      intro hC
      rcases stop_state s with h1 | h1 <;>
        exact absurd (h1.symm.trans hC) (by decide)
    | query s =>
      intro hC
      exact Or.inl hC
    | enter s =>
      intro hC
      rcases enter_state s with h1 | h1
      · exact Or.inl (h1 ▸ hC)
      · exact absurd (h1.symm.trans hC) (by decide)
    | finish s =>
      intro hC
      rcases finish_state s with h1 | h1
      · exact Or.inl (h1 ▸ hC)
      · exact absurd (h1.symm.trans hC) (by decide)
    | crash e0 s =>
      intro _
      exact Or.inr ⟨e0, rfl⟩
    | die s =>
      intro hC
      rw [die_status] at hC
      exact Or.inl hC
  · rintro ⟨w, hT, hP⟩
    have hcr : (s.workerCrash e).status = ⟨false, "crashed", reprExc e⟩ := by
      simp [Sys.workerCrash, hT, hP]
    refine ⟨hcr, ?_, ?_⟩
    · rw [hcr]
      exact reprExc_contains e
    · rw [hcr]
      exact reprExc_ne_empty e

/-- C7 witness: a body raising `ValueError("boom")` while running yields a
crashed, non-running status whose detail mentions `boom`. -/
theorem c7_crash_at_boom :
    (traceRunning.workerCrash excBoom).status.state = "crashed" ∧
    (traceRunning.workerCrash excBoom).status.running = false ∧
    containsSub ((traceRunning.workerCrash excBoom).status.detail) "boom" ∧
    (traceRunning.workerCrash excBoom).status.detail ≠ "" := by
  have h := (c7_crash_only_path (Label.crashL excBoom) traceRunning
      (traceRunning.workerCrash excBoom) excBoom
      (Step.crash excBoom traceRunning)).2
      ⟨⟨0, WorkerPhase.bodyRunning⟩, rfl, rfl⟩
  refine ⟨?_, ?_, h.2.1, h.2.2⟩
  · rw [h.1]
  · rw [h.1]

/-- C8: `status()` returns the stored status and changes no field of the
runtime: thread handle, stop event and status are exactly as before. -/
theorem c8_status_pure (s : Sys) :
    (s.statusOp).1 = s.status ∧
    (s.statusOp).2 = s ∧
    (s.statusOp).2.thread = s.thread ∧
    (s.statusOp).2.stopEvent = s.stopEvent ∧
    (s.statusOp).2.status = s.status :=
  ⟨rfl, rfl, rfl, rfl, rfl⟩

/-- C9: a no-op `start()` (worker alive) leaves the stop event and the
thread handle unchanged while overwriting the status with the running /
"already running" snapshot. -/
theorem c9_noop_start_keeps_signal (s : Sys) (h : s.threadAlive = true) :
    (s.start).2.stopEvent = s.stopEvent ∧
    (s.start).2.thread = s.thread ∧
    (s.start).1 = ⟨true, "running", "already running"⟩ ∧
    (s.start).2.status = ⟨true, "running", "already running"⟩ := by
  simp [Sys.start, h]

/-- C9 witness: after `stop()` on a live run (state stopping, signal set),
a further `start()` keeps the signal set — cancellation stays requested —
yet stores a status reading running. -/
theorem c9_noop_start_after_stop :
    traceStopping.threadAlive = true ∧
    traceStopping.stopEvent = true ∧
    traceStopping.status.state = "stopping" ∧
    (traceStopping.start).2.stopEvent = true ∧
    (traceStopping.start).2.status.state = "running" ∧
    (traceStopping.start).2.status.running = true := by
  have h := c9_noop_start_keeps_signal traceStopping rfl
  refine ⟨rfl, rfl, rfl, ?_, ?_, ?_⟩
  · rw [h.1]
    rfl
  · rw [h.2.2.2]
  · rw [h.2.2.2]

/-- C10: a no-op `stop()` (no worker alive) overwrites the stored status
wholesale with `(False, "stopped", "already stopped")`, whatever it was,
so a later `status()` returns that snapshot and any previous crash detail
is gone. -/
theorem c10_noop_stop_overwrites (s : Sys) (h : s.threadAlive = false) :
    (s.stop).2.status = ⟨false, "stopped", "already stopped"⟩ ∧
    ((s.stop).2.statusOp).1 = ⟨false, "stopped", "already stopped"⟩ := by
  have hA : (s.threadAlive = true) = False := by simp [h]
  simp [Sys.stop, Sys.statusOp, hA]

/-- C10 witness: after a crash with `ValueError("boom")` and worker death,
`stop()` replaces the crashed status, and the crash cause disappears from
the snapshot later `status()` calls return. -/
theorem c10_noop_stop_after_crash :
    traceCrashedDead.threadAlive = false ∧
    traceCrashedDead.status.state = "crashed" ∧
    containsSub (traceCrashedDead.status.detail) "boom" ∧
    (traceCrashedDead.stop).2.status = ⟨false, "stopped", "already stopped"⟩ ∧
    ((traceCrashedDead.stop).2.statusOp).1.state = "stopped" ∧
    ((traceCrashedDead.stop).2.statusOp).1.detail = "already stopped" := by
  have h := c10_noop_stop_overwrites traceCrashedDead rfl
  refine ⟨rfl, rfl, reprExc_contains excBoom, h.1, ?_, ?_⟩
  · rw [h.2]
  · rw [h.2]
